import Mathlib

/-!
Verification of the shape-creation and property-application engine of a
design-file MCP server (`src/handlers/creation.ts` and `src/types.ts`).

The TypeScript source is shallowly embedded: JS numbers become an abstract
linearly ordered field `α` (instantiated with `ℝ` for trigonometric claims
and `ℚ` for concrete evaluations); the runtime `Math` object and other
JS/externals (number formatting, `fetch`, the `figma` plugin API) are
explicit parameters; optional object fields become `Option`; thrown
JS `Error`s become an `Except` error type whose constructors tag the
individual throw sites.

`creation.ts` contains successive revisions of the `CreationHandler`
class; the latest revision's dispatcher notes "Previous cases remain",
folding the earlier revisions' shape cases into the final handler.  The
embedding below models that final, merged handler: the
rectangle/ellipse/text/line/polygon cases of the latest full dispatcher
together with the image case and image-aware common-property section of
the final revision.
-/

namespace FigmaMCP

/-- The 2D point record of `types.ts` (`Point`). -/
structure Point (α : Type) where
  x : α
  y : α
deriving Repr, DecidableEq

/-- The RGB color record of `types.ts` (`Color`). -/
structure Color (α : Type) where
  r : α
  g : α
  b : α
deriving Repr, DecidableEq

/-- `FillStyle` of `types.ts`: a solid paint description (`type: 'SOLID'`
is the only inhabitant of the tag and is left implicit). -/
structure FillStyle (α : Type) where
  color : Color α
deriving Repr, DecidableEq

/-- The pieces of the JS runtime `Math` object used by the geometry code. -/
structure MathApi (α : Type) where
  cos : α → α
  sin : α → α
  pi : α

/-- `calculateRegularPolygonPoints` of `creation.ts`: `sides` points on a
circle of radius `radius` about `(centerX, centerY)`, at angular step
`2π/sides`, starting at `rotation` degrees (converted to radians).
`Math.cos`/`Math.sin`/`Math.PI` are taken from the `math` parameter. -/
def calculateRegularPolygonPoints [Field α] (math : MathApi α)
    (centerX centerY radius : α) (sides : ℕ) (rotation : α) :
    List (Point α) :=
  let angleStep := (2 * math.pi) / (sides : α)
  let rotationInRadians := (rotation * math.pi) / 180
  (List.range sides).map (fun (i : ℕ) =>
    let angle := (i : α) * angleStep + rotationInRadians
    { x := centerX + radius * math.cos angle
      y := centerY + radius * math.sin angle })

/-- The real-number semantics of the JS `Math` calls used by the code. -/
noncomputable def realMath : MathApi ℝ :=
  { cos := Real.cos, sin := Real.sin, pi := Real.pi }

/-- `LineProperties` of `types.ts`.  `end` is a Lean keyword, so the second
endpoint field is named `endP`. -/
structure LineProperties (α : Type) where
  start : Point α
  endP : Point α
  strokeWeight : Option α := none
deriving DecidableEq

/-- `PolygonProperties` of `types.ts`: every field optional. -/
structure PolygonProperties (α : Type) where
  points : Option (List (Point α)) := none
  sides : Option ℕ := none
  radius : Option α := none
  rotation : Option α := none
  centerX : Option α := none
  centerY : Option α := none
deriving DecidableEq

/-- Per-edge crop offsets of the image properties. -/
structure CropSettings (α : Type) where
  top : Option α := none
  left : Option α := none
  bottom : Option α := none
  right : Option α := none
deriving DecidableEq

/-- The image sub-bag (`properties.image`): source string, scale mode and
optional paint adjustments. -/
structure ImageProperties (α : Type) where
  source : String
  scaleMode : Option String := none
  opacity : Option α := none
  rotation : Option α := none
  cropSettings : Option (CropSettings α) := none
deriving DecidableEq

/-- `CreationProperties` of `types.ts` (the superset across revisions):
an all-optional property bag. -/
structure CreationProperties (α : Type) where
  x : Option α := none
  y : Option α := none
  width : Option α := none
  height : Option α := none
  fill : Option (FillStyle α) := none
  stroke : Option (FillStyle α) := none
  strokeWeight : Option α := none
  text : Option String := none
  line : Option (LineProperties α) := none
  polygon : Option (PolygonProperties α) := none
  image : Option (ImageProperties α) := none
deriving DecidableEq

/-- JS truthiness of an optional number: `undefined` and `0` are falsy. -/
def truthyNum [Zero α] [DecidableEq α] (o : Option α) : Bool :=
  match o with
  | none => false
  | some v => v != 0

/-- JS truthiness of an optional side count (a JS number; `0` is falsy). -/
def truthyNat (o : Option ℕ) : Bool :=
  match o with
  | none => false
  | some v => v != 0

/-- JS truthiness of an optional string: `undefined` and `""` are falsy. -/
def truthyStr (o : Option String) : Bool :=
  match o with
  | none => false
  | some s => s != ""

/-- JS `o || d` on an optional string: the left operand wins when truthy. -/
def jsOrStr (o : Option String) (d : String) : String :=
  match o with
  | none => d
  | some s => if s = "" then d else s

/-- A paint in a node's `fills`/`strokes` list: either the solid paint the
generic fill/stroke step builds or the image paint of the image case. -/
inductive Paint (α : Type) where
  | solid (color : Color α)
  | image (scaleMode : String) (imageHash : String)
deriving DecidableEq

/-- The JS read `paint.scaleMode`: `undefined` on a solid paint. -/
def Paint.scaleModeField : Paint α → Option String
  | .solid _ => none
  | .image sm _ => some sm

/-- One entry of a node's `vectorPaths` list. -/
structure VectorPath where
  windingRule : String
  data : String
deriving DecidableEq

/-- The external design-API node handle, restricted to the fields the
handler reads or writes. -/
structure Node (α : Type) where
  id : String
  nodeType : String
  x : α
  y : α
  width : α
  height : α
  fills : List (Paint α)
  strokes : List (Paint α)
  strokeWeight : Option α
  opacity : Option α
  rotation : Option α
  vectorPaths : List VectorPath
  characters : String
  constraints : Option (String × String)
  constraintsTop : Option α
  constraintsLeft : Option α
  constraintsBottom : Option α
  constraintsRight : Option α
deriving DecidableEq

/-- The node's `resize(width, height)` operation. -/
def Node.resize (n : Node α) (w h : α) : Node α :=
  { n with width := w, height := h }

/-- The external `figma` plugin API as consumed by the handler: the fresh
nodes its primitive constructors return, image registration, and node
lookup by id. -/
structure Figma (α : Type) where
  rectangleNode : Node α
  ellipseNode : Node α
  textNode : Node α
  vectorNode : Node α
  createImage : List ℕ → String
  getNodeById : String → Option (Node α)

/-- JS runtime facilities the handler relies on: number formatting inside
template literals, the global `fetch` (bytes, or a failure message), and
`Math`. -/
structure JsEnv (α : Type) where
  numStr : α → String
  fetch : String → Except String (List ℕ)
  math : MathApi α

/-- The base64 alphabet, indexed by 6-bit value. -/
def base64Chars : List Char :=
  "ABCDEFGHIJKLMNOPQRSTUVWXYZabcdefghijklmnopqrstuvwxyz0123456789+/".data

/-- The base64 digit for a 6-bit value. -/
def encode6 (v : ℕ) : Char := base64Chars.getD v 'A'

/-- The 6-bit value of a base64 digit, `none` on a non-alphabet char. -/
def decode6 (c : Char) : Option ℕ := base64Chars.findIdx? (fun d => d = c)

/-- Base64-encode a byte sequence (standard alphabet, `=` padding): the
encoder side of the data-URI round trip. -/
def btoa : List ℕ → List Char
  | [] => []
  | [a] => [encode6 (a / 4), encode6 (a % 4 * 16), '=', '=']
  | [a, b] => [encode6 (a / 4), encode6 (a % 4 * 16 + b / 16), encode6 (b % 16 * 4), '=']
  | a :: b :: c :: rest =>
      encode6 (a / 4) :: encode6 (a % 4 * 16 + b / 16) ::
      encode6 (b % 16 * 4 + c / 64) :: encode6 (c % 64) :: btoa rest

/-- The JS `atob` primitive on the decoded side: base64 text to byte
values; a malformed input models the `InvalidCharacterError` the JS
primitive throws. -/
def atob : List Char → Except String (List ℕ)
  | [] => .ok []
  | c1 :: c2 :: c3 :: c4 :: rest =>
    match decode6 c1, decode6 c2 with
    | some v1, some v2 =>
      if c3 = '=' then
        if c4 = '=' then
          if rest = [] then .ok [v1 * 4 + v2 / 16] else .error "InvalidCharacterError"
        else .error "InvalidCharacterError"
      else
        match decode6 c3 with
        | some v3 =>
          if c4 = '=' then
            if rest = [] then .ok [v1 * 4 + v2 / 16, v2 % 16 * 16 + v3 / 4]
            else .error "InvalidCharacterError"
          else
            match decode6 c4 with
            | some v4 =>
              match atob rest with
              | .ok tail =>
                  .ok ((v1 * 4 + v2 / 16) :: (v2 % 16 * 16 + v3 / 4) :: (v3 % 4 * 64 + v4) :: tail)
              | .error e => .error e
            | none => .error "InvalidCharacterError"
        | none => .error "InvalidCharacterError"
    | _, _ => .error "InvalidCharacterError"
  | _ => .error "InvalidCharacterError"

/-- JS `s.startsWith(pfx)`. -/
def jsStartsWith (s pfx : String) : Bool := pfx.data.isPrefixOf s.data

/-- JS `s.split(',')[1]`: the text between the first comma and the next
comma (or the end of the string); `none` when no comma occurs. -/
def splitCommaGet1 (s : String) : Option (List Char) :=
  match s.data.dropWhile (fun c => c ≠ ',') with
  | _ :: rest => some (rest.takeWhile (fun c => c ≠ ','))
  | [] => none

/-- `loadImage` of `creation.ts`: an embedded `data:image…` source is
base64-decoded from the text after the first comma, any other source is
fetched as a URL; the error value carries the underlying JS error's
message.  (On a data source without a comma, JS passes `undefined` to
`atob`, which throws; that path is modeled as the decode error.) -/
def loadImage (js : JsEnv α) (source : String) : Except String (List ℕ) :=
  if jsStartsWith source "data:image" then
    match splitCommaGet1 source with
    | some base64Data => atob base64Data
    | none => Except.error "InvalidCharacterError"
  else js.fetch source

/-- The errors the handler throws.  In JS every site throws `new
Error(message)`; the constructors tag the throw sites with the error
kinds of the specification, plus `typeError` for the implicit JS
`TypeError` raised by reading a property of `undefined`. -/
inductive CreateError where
  | missingRequired (msg : String)
  | unsupported (msg : String)
  | imageLoadFailure (msg : String)
  | imageUpdateFailure (msg : String)
  | nodeNotFound (msg : String)
  | typeError (msg : String)
deriving DecidableEq

/-- JS `if (o) node = f(node, o)` for a numeric property: skipped when the
property is `undefined` or `0` (falsy). -/
def ifTruthy [Zero α] [DecidableEq α] (o : Option α) (node : Node α)
    (f : Node α → α → Node α) : Node α :=
  match o with
  | some v => if v ≠ 0 then f node v else node
  | none => node

/-- JS `if (o !== undefined) node = f(node, o)`. -/
def ifDefined (o : Option β) (node : Node α) (f : Node α → β → Node α) : Node α :=
  match o with
  | some v => f node v
  | none => node

/-- The common property section closing `create` (the spec's Property
Applicator): direct x/y/width/height assignment, the generic solid-fill
step (skipped for the image kind), stroke, strokeWeight. -/
def applyCommon [Zero α] [DecidableEq α] (shapeType : String)
    (properties : CreationProperties α) (node : Node α) : Node α :=
  let node := ifDefined properties.x node (fun n v => { n with x := v })
  let node := ifDefined properties.y node (fun n v => { n with y := v })
  let node := ifDefined properties.width node (fun n v => { n with width := v })
  let node := ifDefined properties.height node (fun n v => { n with height := v })
  let node :=
    if shapeType ≠ "image" then
      match properties.fill with
      | some f => { node with fills := [Paint.solid f.color] }
      | none => node
    else node
  let node :=
    match properties.stroke with
    | some st => { node with strokes := [Paint.solid st.color] }
    | none => node
  ifDefined properties.strokeWeight node (fun n v => { n with strokeWeight := some v })

/-- The vertex-resolution block of the polygon case: an explicit `points`
array wins (JS truthiness: an array, even empty, is truthy), else the
parametric regular polygon when `sides` and `radius` are both truthy,
else the missing-property error. -/
def resolvePolygonPoints [LinearOrderedField α] (js : JsEnv α)
    (polygon : PolygonProperties α) : Except CreateError (List (Point α)) :=
  match polygon.points with
  | some ps => Except.ok ps
  | none =>
      if truthyNat polygon.sides && truthyNum polygon.radius then
        Except.ok (calculateRegularPolygonPoints js.math (polygon.centerX.getD 0)
          (polygon.centerY.getD 0) (polygon.radius.getD 0) (polygon.sides.getD 0)
          (polygon.rotation.getD 0))
      else
        Except.error (.missingRequired
          "Either points or sides+radius must be provided for polygon creation")

/-- The kind-specific `switch` of `create`: dispatch on the shape type
tag, validation of the kind's sub-bag, geometry and path synthesis, and
the image pipeline; the default arm is the `Unsupported shape type`
throw. -/
def createKindStep [LinearOrderedField α] (js : JsEnv α) (figma : Figma α)
    (shapeType : String) (properties : CreationProperties α) :
    Except CreateError (Node α) :=
  match shapeType with
  | "rectangle" =>
      let node := figma.rectangleNode
      let node := ifTruthy properties.width node (fun n w => n.resize w n.height)
      let node := ifTruthy properties.height node (fun n h => n.resize n.width h)
      Except.ok node
  | "ellipse" =>
      let node := figma.ellipseNode
      let node := ifTruthy properties.width node (fun n w => n.resize w n.height)
      let node := ifTruthy properties.height node (fun n h => n.resize n.width h)
      Except.ok node
  | "text" =>
      let node := figma.textNode
      let node :=
        match properties.text with
        | some t => if t ≠ "" then { node with characters := t } else node
        | none => node
      Except.ok node
  | "line" =>
      match properties.line with
      | none => Except.error (.missingRequired "Line properties are required for line creation")
      | some l =>
          let node := figma.vectorNode
          let path : VectorPath :=
            { windingRule := "NONZERO"
              data := "M " ++ js.numStr l.start.x ++ " " ++ js.numStr l.start.y ++
                " L " ++ js.numStr l.endP.x ++ " " ++ js.numStr l.endP.y }
          let node := { node with vectorPaths := [path] }
          let node := { node with x := min l.start.x l.endP.x, y := min l.start.y l.endP.y }
          let node := node.resize |l.endP.x - l.start.x| |l.endP.y - l.start.y|
          Except.ok node
  | "polygon" =>
      match properties.polygon with
      | none => Except.error (.missingRequired "Polygon properties are required for polygon creation")
      | some polygon =>
          match resolvePolygonPoints js polygon with
          | Except.error e => Except.error e
          | Except.ok pts =>
              match pts with
              | [] => Except.error (.typeError "Cannot read properties of undefined (reading x)")
              | p0 :: rest =>
                  let node := figma.vectorNode
                  let pathData :=
                    (rest.foldl
                      (fun acc p => acc ++ " L " ++ js.numStr p.x ++ " " ++ js.numStr p.y)
                      ("M " ++ js.numStr p0.x ++ " " ++ js.numStr p0.y)) ++ " Z"
                  let node := { node with
                    vectorPaths := [{ windingRule := "NONZERO", data := pathData }] }
                  let minX := (rest.map Point.x).foldl min p0.x
                  let maxX := (rest.map Point.x).foldl max p0.x
                  let minY := (rest.map Point.y).foldl min p0.y
                  let maxY := (rest.map Point.y).foldl max p0.y
                  let node := { node with x := minX, y := minY }
                  let node := node.resize (maxX - minX) (maxY - minY)
                  Except.ok node
  | "image" =>
      match properties.image with
      | none => Except.error (.missingRequired "Image properties are required for image creation")
      | some image =>
          let node := figma.rectangleNode
          match loadImage js image.source with
          | Except.error e => Except.error (.imageLoadFailure ("Failed to load image: " ++ e))
          | Except.ok imageData =>
              let imagePaint := Paint.image (jsOrStr image.scaleMode "FILL")
                (figma.createImage imageData)
              let node := { node with fills := [imagePaint] }
              let node := ifDefined image.opacity node (fun n v => { n with opacity := some v })
              let node := ifDefined image.rotation node (fun n v => { n with rotation := some v })
              let node :=
                if image.scaleMode = some "CROP" then
                  match image.cropSettings with
                  | some cs =>
                      let n := { node with constraints := some ("SCALE", "SCALE") }
                      let n := ifDefined cs.top n (fun n v => { n with constraintsTop := some v })
                      let n := ifDefined cs.left n (fun n v => { n with constraintsLeft := some v })
                      let n := ifDefined cs.bottom n (fun n v => { n with constraintsBottom := some v })
                      ifDefined cs.right n (fun n v => { n with constraintsRight := some v })
                  | none => node
                else node
              Except.ok node
  | _ => Except.error (.unsupported ("Unsupported shape type: " ++ shapeType))

/-- `create` of the final, merged `CreationHandler`: the kind-specific
switch followed by the common property section.  The value is the node
the handler leaves behind (the JSON summary it returns is a projection
of these fields). -/
def create [LinearOrderedField α] (js : JsEnv α) (figma : Figma α)
    (shapeType : String) (properties : CreationProperties α) :
    Except CreateError (Node α) :=
  (createKindStep js figma shapeType properties).map (applyCommon shapeType properties)

/-- `modify` of the final `CreationHandler` revision: node lookup by
reference, the image-update pipeline when `properties.image` is present,
then direct width/height/x/y updates. -/
def modify [LinearOrderedField α] (js : JsEnv α) (figma : Figma α)
    (uri : String) (properties : CreationProperties α) :
    Except CreateError (Node α) :=
  match figma.getNodeById uri with
  | none => Except.error (.nodeNotFound ("Node not found: " ++ uri))
  | some node =>
      let step1 : Except CreateError (Node α) :=
        match properties.image with
        | none => Except.ok node
        | some image =>
            match loadImage js image.source with
            | Except.error e => Except.error (.imageUpdateFailure ("Failed to update image: " ++ e))
            | Except.ok imageData =>
                let imagePaint := Paint.image
                  (jsOrStr image.scaleMode
                    (jsOrStr ((node.fills.head?).bind Paint.scaleModeField) "FILL"))
                  (figma.createImage imageData)
                let node := { node with fills := [imagePaint] }
                let node := ifDefined image.opacity node (fun n v => { n with opacity := some v })
                let node := ifDefined image.rotation node (fun n v => { n with rotation := some v })
                let node :=
                  match image.cropSettings with
                  | some cs =>
                      if image.scaleMode = some "CROP" then
                        let n := ifDefined cs.top node (fun n v => { n with constraintsTop := some v })
                        let n := ifDefined cs.left n (fun n v => { n with constraintsLeft := some v })
                        let n := ifDefined cs.bottom n (fun n v => { n with constraintsBottom := some v })
                        ifDefined cs.right n (fun n v => { n with constraintsRight := some v })
                      else node
                  | none => node
                Except.ok node
      match step1 with
      | Except.error e => Except.error e
      | Except.ok node =>
          let node := ifDefined properties.width node (fun n v => { n with width := v })
          let node := ifDefined properties.height node (fun n v => { n with height := v })
          let node := ifDefined properties.x node (fun n v => { n with x := v })
          let node := ifDefined properties.y node (fun n v => { n with y := v })
          Except.ok node

/-- `true` exactly on a `missingRequired` error result (the spec's
`MissingRequiredProperty` kind). -/
def isMissingRequired : Except CreateError β → Bool
  | Except.error (CreateError.missingRequired _) => true
  | _ => false

/-- `true` exactly on a successful result. -/
def isOkE : Except ε β → Bool
  | Except.ok _ => true
  | _ => false

/-- The line segments of a synthesized path, as the spec words it: one
`" L x y"` piece per vertex after the first. -/
def lineSegments (numStr : α → String) : List (Point α) → String
  | [] => ""
  | p :: rest => " L " ++ numStr p.x ++ " " ++ numStr p.y ++ lineSegments numStr rest

/-- Path synthesis as the spec words it: a move to the first vertex, a
line to each subsequent vertex, and a close marker exactly when closed. -/
def specPathString (numStr : α → String) (p0 : Point α) (rest : List (Point α))
    (closed : Bool) : String :=
  "M " ++ numStr p0.x ++ " " ++ numStr p0.y ++ lineSegments numStr rest ++
    (if closed then " Z" else "")

/-- A blank fresh node over `ℚ`, standing in for what the external
primitive constructors hand back. -/
def blankNode : Node ℚ :=
  { id := "node", nodeType := "", x := 0, y := 0, width := 100, height := 100
    fills := [], strokes := [], strokeWeight := none, opacity := none, rotation := none
    vectorPaths := [], characters := "", constraints := none
    constraintsTop := none, constraintsLeft := none, constraintsBottom := none
    constraintsRight := none }

/-- A concrete JS environment over `ℚ` for evaluating the embedding on
test inputs: `fetch` rejects on the URL `"http://err"` and otherwise
returns three bytes; the `Math` stubs are never reached by the concrete
evaluations below. -/
def testJs : JsEnv ℚ :=
  { numStr := fun _ => "n"
    fetch := fun s => if s = "http://err" then Except.error "network error" else Except.ok [1, 2, 3]
    math := { cos := fun _ => 1, sin := fun _ => 0, pi := 0 } }

/-- A concrete external API over `ℚ`: fresh nodes per primitive, a fixed
image hash, and a lookup that resolves only `"n1"` (to a node whose first
fill is an image paint with scale mode `"FIT"`). -/
def testFigma : Figma ℚ :=
  { rectangleNode := { blankNode with nodeType := "RECTANGLE" }
    ellipseNode := { blankNode with nodeType := "ELLIPSE" }
    textNode := { blankNode with nodeType := "TEXT" }
    vectorNode := { blankNode with nodeType := "VECTOR" }
    createImage := fun _ => "hash"
    getNodeById := fun s =>
      if s = "n1" then some { blankNode with id := "n1", fills := [Paint.image "FIT" "oldhash"] }
      else none }

theorem decode6_encode6 : ∀ v < 64, decode6 (encode6 v) = some v := by decide

theorem encode6_ne_pad : ∀ v < 64, encode6 v ≠ '=' := by decide

/-- Base64 round trip: decoding an encoded byte sequence restores it. -/
theorem atob_btoa : ∀ l : List ℕ, (∀ x ∈ l, x < 256) → atob (btoa l) = Except.ok l
  | [], _ => rfl
  | [a], h => by
    have ha : a < 256 := h a (by simp)
    have d1 : decode6 (encode6 (a / 4)) = some (a / 4) := decode6_encode6 _ (by omega)
    have d2 : decode6 (encode6 (a % 4 * 16)) = some (a % 4 * 16) := decode6_encode6 _ (by omega)
    simp [btoa, atob, d1, d2]
    omega
  | [a, b], h => by
    have ha : a < 256 := h a (by simp)
    have hb : b < 256 := h b (by simp)
    have d1 : decode6 (encode6 (a / 4)) = some (a / 4) := decode6_encode6 _ (by omega)
    have d2 : decode6 (encode6 (a % 4 * 16 + b / 16)) = some (a % 4 * 16 + b / 16) :=
      decode6_encode6 _ (by omega)
    have d3 : decode6 (encode6 (b % 16 * 4)) = some (b % 16 * 4) := decode6_encode6 _ (by omega)
    have n3 : encode6 (b % 16 * 4) ≠ '=' := encode6_ne_pad _ (by omega)
    simp [btoa, atob, d1, d2, d3, n3]
    omega
  | a :: b :: c :: rest, h => by
    have ha : a < 256 := h a (by simp)
    have hb : b < 256 := h b (by simp)
    have hc : c < 256 := h c (by simp)
    have ih : atob (btoa rest) = Except.ok rest :=
      atob_btoa rest (fun x hx => h x (by simp [hx]))
    have d1 : decode6 (encode6 (a / 4)) = some (a / 4) := decode6_encode6 _ (by omega)
    have d2 : decode6 (encode6 (a % 4 * 16 + b / 16)) = some (a % 4 * 16 + b / 16) :=
      decode6_encode6 _ (by omega)
    have d3 : decode6 (encode6 (b % 16 * 4 + c / 64)) = some (b % 16 * 4 + c / 64) :=
      decode6_encode6 _ (by omega)
    have d4 : decode6 (encode6 (c % 64)) = some (c % 64) := decode6_encode6 _ (by omega)
    have n3 : encode6 (b % 16 * 4 + c / 64) ≠ '=' := encode6_ne_pad _ (by omega)
    have n4 : encode6 (c % 64) ≠ '=' := encode6_ne_pad _ (by omega)
    rw [show btoa (a :: b :: c :: rest) =
      encode6 (a / 4) :: encode6 (a % 4 * 16 + b / 16) ::
      encode6 (b % 16 * 4 + c / 64) :: encode6 (c % 64) :: btoa rest from rfl]
    rw [atob]
    simp [d1, d2, d3, d4, n3, n4, ih]
    omega

theorem ifDefined_setX [Zero α] [DecidableEq α] (o : Option α) (node : Node α) :
    ifDefined o node (fun n v => { n with x := v }) = { node with x := o.getD node.x } := by
  cases o <;> rfl

theorem ifDefined_setY [Zero α] [DecidableEq α] (o : Option α) (node : Node α) :
    ifDefined o node (fun n v => { n with y := v }) = { node with y := o.getD node.y } := by
  cases o <;> rfl

theorem ifDefined_setW [Zero α] [DecidableEq α] (o : Option α) (node : Node α) :
    ifDefined o node (fun n v => { n with width := v }) =
      { node with width := o.getD node.width } := by
  cases o <;> rfl

theorem ifDefined_setH [Zero α] [DecidableEq α] (o : Option α) (node : Node α) :
    ifDefined o node (fun n v => { n with height := v }) =
      { node with height := o.getD node.height } := by
  cases o <;> rfl

/-- Field-wise characterization of the common property section. -/
theorem applyCommon_spec [Zero α] [DecidableEq α] (t : String)
    (props : CreationProperties α) (node : Node α) :
    applyCommon t props node = { node with
      x := props.x.getD node.x
      y := props.y.getD node.y
      width := props.width.getD node.width
      height := props.height.getD node.height
      fills :=
        if t ≠ "image" then
          match props.fill with
          | some f => [Paint.solid f.color]
          | none => node.fills
        else node.fills
      strokes :=
        match props.stroke with
        | some st => [Paint.solid st.color]
        | none => node.strokes
      strokeWeight :=
        match props.strokeWeight with
        | some v => some v
        | none => node.strokeWeight } := by
  unfold applyCommon
  simp only [ifDefined_setX, ifDefined_setY, ifDefined_setW, ifDefined_setH]
  by_cases ht : t = "image" <;>
    cases props.fill <;> cases props.stroke <;> cases props.strokeWeight <;>
      simp [ifDefined, ht]

/-- The polygon case's left fold of `" L x y"` pieces equals the spec's
segment string appended to the initial move. -/
theorem foldl_lineSegments (f : α → String) : ∀ (l : List (Point α)) (init : String),
    l.foldl (fun acc p => acc ++ " L " ++ f p.x ++ " " ++ f p.y) init =
      init ++ lineSegments f l
  | [], init => by simp [lineSegments]
  | p :: l, init => by
      rw [List.foldl_cons, foldl_lineSegments f l, lineSegments]
      simp [String.append_assoc]

theorem encode6_ne_comma (v : ℕ) : encode6 v ≠ ',' := by
  have key : ∀ w, w < 64 → encode6 w ≠ ',' := by decide
  by_cases h : v < 64
  · exact key v h
  · unfold encode6
    rw [List.getD_eq_default]
    · decide
    · have hlen : base64Chars.length = 64 := by decide
      omega

theorem btoa_comma_free : ∀ (l : List ℕ), ∀ c ∈ btoa l, c ≠ ','
  | [] => by simp [btoa]
  | [a] => by
      intro c hc
      simp [btoa] at hc
      rcases hc with h | h | rfl
      · subst h; exact encode6_ne_comma _
      · subst h; exact encode6_ne_comma _
      · decide
  | [a, b] => by
      intro c hc
      simp [btoa] at hc
      rcases hc with h | h | h | rfl
      · subst h; exact encode6_ne_comma _
      · subst h; exact encode6_ne_comma _
      · subst h; exact encode6_ne_comma _
      · decide
  | a :: b :: c3 :: rest => by
      intro c hc
      simp [btoa] at hc
      rcases hc with h | h | h | h | h
      · subst h; exact encode6_ne_comma _
      · subst h; exact encode6_ne_comma _
      · subst h; exact encode6_ne_comma _
      · subst h; exact encode6_ne_comma _
      · exact btoa_comma_free rest c h

/-- The loader on a well-formed embedded-data source: the payload after
the first comma is base64-decoded back to the encoded bytes. -/
theorem loadImage_data_uri {α : Type} (js : JsEnv α) (b : List ℕ)
    (hb : ∀ x ∈ b, x < 256) :
    loadImage js ("data:image/png;base64," ++ String.mk (btoa b)) = Except.ok b := by
  have hpre : jsStartsWith ("data:image/png;base64," ++ String.mk (btoa b)) "data:image" = true := by
    unfold jsStartsWith
    rw [String.data_append, List.isPrefixOf_iff_prefix]
    refine List.IsPrefix.trans ?_ (List.prefix_append _ _)
    decide
  have hsplit : splitCommaGet1 ("data:image/png;base64," ++ String.mk (btoa b)) =
      some (btoa b) := by
    unfold splitCommaGet1
    rw [String.data_append,
      show ("data:image/png;base64,".data) = "data:image/png;base64".data ++ [','] by decide,
      List.append_assoc, List.dropWhile_append_of_pos (by decide)]
    simp only [List.singleton_append, List.dropWhile_cons]
    rw [if_neg (by decide)]
    simp [List.takeWhile_eq_self_iff]
    intro x hx
    simpa using btoa_comma_free b x hx
  unfold loadImage
  rw [hpre, hsplit]
  simp only [if_true]
  exact atob_btoa b hb

/-- A `create` success factors as the kind step followed by the common
property section. -/
theorem create_ok_iff [LinearOrderedField α] (js : JsEnv α) (figma : Figma α)
    (t : String) (props : CreationProperties α) (n : Node α) :
    create js figma t props = Except.ok n ↔
      ∃ m, createKindStep js figma t props = Except.ok m ∧ applyCommon t props m = n := by
  unfold create
  cases createKindStep js figma t props <;> simp [Except.map]

/-- `ifDefined` preserves the `fills` field whenever its update does. -/
theorem ifDefined_fills {β : Type} (o : Option β) (m : Node α) (g : Node α → β → Node α)
    (hg : ∀ m' v, (g m' v).fills = m'.fills) : (ifDefined o m g).fills = m.fills := by
  cases o <;> simp [ifDefined, hg]

theorem ifDefined_fills_upX (o : Option α) (m : Node α) :
    (ifDefined o m (fun n v => { n with x := v })).fills = m.fills := by
  cases o <;> rfl

theorem ifDefined_fills_upY (o : Option α) (m : Node α) :
    (ifDefined o m (fun n v => { n with y := v })).fills = m.fills := by
  cases o <;> rfl

theorem ifDefined_fills_upW (o : Option α) (m : Node α) :
    (ifDefined o m (fun n v => { n with width := v })).fills = m.fills := by
  cases o <;> rfl

theorem ifDefined_fills_upH (o : Option α) (m : Node α) :
    (ifDefined o m (fun n v => { n with height := v })).fills = m.fills := by
  cases o <;> rfl

/-- Fills produced by the kind step of an image creation: exactly the
constructed image paint. -/
theorem createKindStep_image_fills [LinearOrderedField α] (js : JsEnv α) (figma : Figma α)
    (props : CreationProperties α) (im : ImageProperties α) (data : List ℕ)
    (him : props.image = some im) (hload : loadImage js im.source = Except.ok data) :
    ∀ n, createKindStep js figma "image" props = Except.ok n →
      n.fills = [Paint.image (jsOrStr im.scaleMode "FILL") (figma.createImage data)] := by
  intro n hn
  simp [createKindStep, him, hload] at hn
  subst hn
  rcases im with ⟨src, sm, op, rot, cs⟩
  by_cases hsm : sm = some "CROP" <;>
    cases op <;> cases rot <;>
      rcases cs with _ | ⟨ct, cl, cb, cr⟩ <;>
        first
          | (cases ct <;> cases cl <;> cases cb <;> cases cr <;> simp [ifDefined, hsm])
          | simp [ifDefined, hsm]

/-- `Except.map` (the common property section) preserves the error kind. -/
theorem isMissingRequired_map {β γ : Type} (f : β → γ) (r : Except CreateError β) :
    isMissingRequired (Except.map f r) = isMissingRequired r := by
  cases r with
  | ok v => rfl
  | error e => cases e <;> rfl

/-- `foldl_lineSegments` with the fold function in right-associated
form (the shape left after `simp` normalizes string appends). -/
theorem foldl_lineSegments_assoc (f : α → String) (l : List (Point α)) (init : String) :
    List.foldl (fun acc p => acc ++ (" L " ++ (f p.x ++ (" " ++ f p.y)))) init l =
      init ++ lineSegments f l := by
  rw [← foldl_lineSegments]
  congr 1
  funext acc p
  simp [String.append_assoc]

theorem calculateRegularPolygonPoints_length [Field α] (math : MathApi α)
    (cx cy r rot : α) (sides : ℕ) :
    (calculateRegularPolygonPoints math cx cy r sides rot).length = sides := by
  unfold calculateRegularPolygonPoints
  rw [List.length_map, List.length_range]

theorem calculateRegularPolygonPoints_getElem [Field α] (math : MathApi α)
    (cx cy r rot : α) (sides : ℕ) (i : ℕ) (hi : i < sides) :
    (calculateRegularPolygonPoints math cx cy r sides rot)[i]? =
      some { x := cx + r * math.cos ((i : α) * (2 * math.pi / (sides : α)) + rot * math.pi / 180)
             y := cy + r * math.sin ((i : α) * (2 * math.pi / (sides : α)) + rot * math.pi / 180) } := by
  unfold calculateRegularPolygonPoints
  rw [List.getElem?_map, List.getElem?_range hi, Option.map_some']

end FigmaMCP

open FigmaMCP in
/-- C1: for `sides ≥ 3`, `radius > 0`, any center and rotation,
`calculateRegularPolygonPoints` returns exactly `sides` points, the `i`-th
at angle `i*(2π/sides) + rotation*π/180` from the positive X axis
(`x = centerX + radius*cos(angle)`, `y = centerY + radius*sin(angle)`),
each at Euclidean distance `radius` from the center. -/
theorem C1_regular_polygon_points (centerX centerY radius rotation : ℝ)
    (sides : ℕ) (hs : 3 ≤ sides) (hr : 0 < radius) :
    (calculateRegularPolygonPoints realMath centerX centerY radius sides rotation).length = sides ∧
    (∀ i : ℕ, i < sides →
      (calculateRegularPolygonPoints realMath centerX centerY radius sides rotation)[i]? =
        some { x := centerX + radius * Real.cos ((i : ℝ) * (2 * Real.pi / (sides : ℝ)) + rotation * Real.pi / 180)
               y := centerY + radius * Real.sin ((i : ℝ) * (2 * Real.pi / (sides : ℝ)) + rotation * Real.pi / 180) }) ∧
    (∀ i : ℕ, i < sides → ∀ p : Point ℝ,
      (calculateRegularPolygonPoints realMath centerX centerY radius sides rotation)[i]? = some p →
      Real.sqrt ((p.x - centerX) ^ 2 + (p.y - centerY) ^ 2) = radius) := by
  refine ⟨calculateRegularPolygonPoints_length _ _ _ _ _ _, ?_, ?_⟩
  · intro i hi
    exact calculateRegularPolygonPoints_getElem realMath centerX centerY radius rotation sides i hi
  · intro i hi p hp
    rw [calculateRegularPolygonPoints_getElem realMath centerX centerY radius rotation sides i hi] at hp
    obtain rfl := Option.some.inj hp
    simp only [realMath]
    have h1 := Real.sin_sq_add_cos_sq
      ((i : ℝ) * (2 * Real.pi / (sides : ℝ)) + rotation * Real.pi / 180)
    have hsum : (centerX + radius *
          Real.cos ((i : ℝ) * (2 * Real.pi / (sides : ℝ)) + rotation * Real.pi / 180) - centerX) ^ 2 +
        (centerY + radius *
          Real.sin ((i : ℝ) * (2 * Real.pi / (sides : ℝ)) + rotation * Real.pi / 180) - centerY) ^ 2 =
        radius ^ 2 := by
      linear_combination radius ^ 2 * h1
    rw [hsum, Real.sqrt_sq hr.le]

open FigmaMCP in
/-- Witness for C1 at `centerX = centerY = rotation = 0`, `radius = 1`,
`sides = 3`. -/
theorem C1_regular_polygon_points_witness :
    (3 ≤ 3 ∧ (0 : ℝ) < 1) ∧
    ((calculateRegularPolygonPoints realMath 0 0 1 3 0).length = 3 ∧
    (∀ i : ℕ, i < 3 →
      (calculateRegularPolygonPoints realMath 0 0 1 3 0)[i]? =
        some { x := 0 + 1 * Real.cos ((i : ℝ) * (2 * Real.pi / ((3 : ℕ) : ℝ)) + 0 * Real.pi / 180)
               y := 0 + 1 * Real.sin ((i : ℝ) * (2 * Real.pi / ((3 : ℕ) : ℝ)) + 0 * Real.pi / 180) }) ∧
    (∀ i : ℕ, i < 3 → ∀ p : Point ℝ,
      (calculateRegularPolygonPoints realMath 0 0 1 3 0)[i]? = some p →
      Real.sqrt ((p.x - 0) ^ 2 + (p.y - 0) ^ 2) = 1)) :=
  ⟨⟨by decide, zero_lt_one⟩,
   C1_regular_polygon_points 0 0 1 0 3 (by decide) zero_lt_one⟩

open FigmaMCP in
/-- C4 counterexample: creating kind `star` with any property bag does
not succeed with a star-vertex path — it fails with the
`Unsupported shape type` error, evaluated here at the empty bag. -/
theorem C4_counterexample :
    create testJs testFigma "star" {} =
      Except.error (CreateError.unsupported "Unsupported shape type: star") := rfl

open FigmaMCP in
/-- C4 (amended): kind `star` is not implemented — the dispatcher has no
star case (and `ShapeType`/`CreationProperties` carry no star members),
so for every environment and property bag `create` with tag `"star"`
fails with `UnsupportedShapeKind` (`"Unsupported shape type: star"`);
no star-vertex computation exists in the code. -/
theorem C4_star_unsupported [LinearOrderedField α] (js : JsEnv α) (figma : Figma α)
    (props : CreationProperties α) :
    create js figma "star" props =
      Except.error (CreateError.unsupported "Unsupported shape type: star") := rfl

open FigmaMCP in
/-- C10: an explicit `polygon.points` array is accepted without length
validation (the result is never `MissingRequiredProperty`, whatever the
length), and path synthesis's unguarded indexed reads are in bounds
exactly when the list is non-empty: an empty explicit list reaches the
`points[0].x` read of `undefined` — a JS `TypeError` — rather than any
of the spec's error kinds, while a non-empty list always succeeds. -/
theorem C10_explicit_points_safety [LinearOrderedField α] (js : JsEnv α) (figma : Figma α)
    (props : CreationProperties α) (pg : PolygonProperties α) (pts : List (Point α))
    (hpg : props.polygon = some pg) (hpts : pg.points = some pts) :
    isMissingRequired (create js figma "polygon" props) = false ∧
    (create js figma "polygon" props =
        Except.error (CreateError.typeError "Cannot read properties of undefined (reading x)") ↔
      pts = []) ∧
    (pts ≠ [] → isOkE (create js figma "polygon" props) = true) := by
  cases pts with
  | nil =>
      simp [create, createKindStep, resolvePolygonPoints, hpg, hpts, isMissingRequired, isOkE,
        Except.map]
  | cons p0 rest =>
      simp [create, createKindStep, resolvePolygonPoints, hpg, hpts, isMissingRequired, isOkE,
        Except.map]

open FigmaMCP in
/-- Witness for C10 at a one-point explicit list. -/
theorem C10_explicit_points_safety_witness :
    (({ polygon := some { points := some [⟨1, 2⟩] } } : CreationProperties ℚ).polygon =
        some { points := some [⟨1, 2⟩] } ∧
      ({ points := some [⟨1, 2⟩] } : PolygonProperties ℚ).points = some [⟨1, 2⟩]) ∧
    (isMissingRequired (create testJs testFigma "polygon"
        { polygon := some { points := some [⟨1, 2⟩] } }) = false ∧
    (create testJs testFigma "polygon" { polygon := some { points := some [⟨1, 2⟩] } } =
        Except.error (CreateError.typeError "Cannot read properties of undefined (reading x)") ↔
      ([⟨1, 2⟩] : List (Point ℚ)) = []) ∧
    (([⟨1, 2⟩] : List (Point ℚ)) ≠ [] → isOkE (create testJs testFigma "polygon"
        { polygon := some { points := some [⟨1, 2⟩] } }) = true)) :=
  ⟨⟨rfl, rfl⟩, C10_explicit_points_safety testJs testFigma _ _ [⟨1, 2⟩] rfl rfl⟩

open FigmaMCP in
/-- C6: whenever loading the image bytes fails (base64 decode error or
rejected fetch), image creation fails with the single wrapped
`ImageLoadFailure` whose message is `"Failed to load image: "` followed
by the underlying failure's message — the raw error is never
propagated. -/
theorem C6_image_load_failure [LinearOrderedField α] (js : JsEnv α) (figma : Figma α)
    (props : CreationProperties α) (im : ImageProperties α) (e : String)
    (him : props.image = some im) (hload : loadImage js im.source = Except.error e) :
    create js figma "image" props =
      Except.error (CreateError.imageLoadFailure ("Failed to load image: " ++ e)) := by
  simp [create, createKindStep, him, hload, Except.map]

open FigmaMCP in
/-- Witness for C6 at a source whose fetch rejects. -/
theorem C6_image_load_failure_witness :
    (({ image := some { source := "http://err" } } : CreationProperties ℚ).image =
        some { source := "http://err" } ∧
      loadImage testJs (({ source := "http://err" } : ImageProperties ℚ)).source =
        Except.error "network error") ∧
    create testJs testFigma "image" { image := some { source := "http://err" } } =
      Except.error (CreateError.imageLoadFailure ("Failed to load image: " ++ "network error")) :=
  ⟨⟨rfl, rfl⟩,
   C6_image_load_failure testJs testFigma _ _ "network error" rfl rfl⟩

open FigmaMCP in
/-- C2 counterexample: a polygon creation whose bag also carries `x = 10`:
the supplied vertices have componentwise minimum `(0, 0)`, but the
created node ends with `x = 10` — the common property section re-assigns
`x` after the bounding box was applied, so the claim's "including those
whose property bag also carries explicit x or y values" clause is false. -/
theorem C2_counterexample :
    (create testJs testFigma "polygon"
        { x := some 10, polygon := some { points := some [⟨0, 0⟩, ⟨4, 0⟩, ⟨0, 3⟩] } }).map Node.x =
      Except.ok 10 ∧
    (create testJs testFigma "polygon"
        { x := some 10, polygon := some { points := some [⟨0, 0⟩, ⟨4, 0⟩, ⟨0, 3⟩] } }).map Node.x ≠
      Except.ok 0 := by
  have h : (create testJs testFigma "polygon"
      { x := some 10, polygon := some { points := some [⟨0, 0⟩, ⟨4, 0⟩, ⟨0, 3⟩] } }).map Node.x =
      Except.ok 10 := rfl
  refine ⟨h, ?_⟩
  rw [h]
  intro hc
  exact absurd (Except.ok.inj hc) (by norm_num)

open FigmaMCP in
/-- C2 (amended): for every polygon creation, the node's position equals
the componentwise minimum and its size (set via the resize call) the
max−min extent of the resolved vertex list — provided the property bag
leaves `x`, `y`, `width` and `height` unset; an explicit value for any
of those overrides the computed bounding box in the common property
section (see the counterexample). -/
theorem C2_polygon_bounding_box [LinearOrderedField α] (js : JsEnv α) (figma : Figma α)
    (props : CreationProperties α) (pg : PolygonProperties α) (p0 : Point α)
    (rest : List (Point α))
    (hpg : props.polygon = some pg)
    (hres : resolvePolygonPoints js pg = Except.ok (p0 :: rest))
    (hx : props.x = none) (hy : props.y = none) (hw : props.width = none)
    (hh : props.height = none) :
    ∀ n, create js figma "polygon" props = Except.ok n →
      n.x = (rest.map Point.x).foldl min p0.x ∧
      n.y = (rest.map Point.y).foldl min p0.y ∧
      n.width = (rest.map Point.x).foldl max p0.x - (rest.map Point.x).foldl min p0.x ∧
      n.height = (rest.map Point.y).foldl max p0.y - (rest.map Point.y).foldl min p0.y := by
  intro n hn
  simp [create, createKindStep, hres, hpg, Except.map] at hn
  subst hn
  rw [applyCommon_spec]
  simp [hx, hy, hw, hh, Node.resize]

open FigmaMCP in
/-- Witness for C2 at a concrete three-point polygon whose bag has no
explicit position or size. -/
theorem C2_polygon_bounding_box_witness :
    (({ polygon := some { points := some [⟨0, 0⟩, ⟨4, 0⟩, ⟨0, 3⟩] } } :
          CreationProperties ℚ).polygon = some { points := some [⟨0, 0⟩, ⟨4, 0⟩, ⟨0, 3⟩] } ∧
      resolvePolygonPoints testJs { points := some [⟨0, 0⟩, ⟨4, 0⟩, ⟨0, 3⟩] } =
        Except.ok [(⟨0, 0⟩ : Point ℚ), ⟨4, 0⟩, ⟨0, 3⟩]) ∧
    (∀ n : Node ℚ, create testJs testFigma "polygon"
        { polygon := some { points := some [⟨0, 0⟩, ⟨4, 0⟩, ⟨0, 3⟩] } } = Except.ok n →
      n.x = (([⟨4, 0⟩, ⟨0, 3⟩] : List (Point ℚ)).map Point.x).foldl min (⟨0, 0⟩ : Point ℚ).x ∧
      n.y = (([⟨4, 0⟩, ⟨0, 3⟩] : List (Point ℚ)).map Point.y).foldl min (⟨0, 0⟩ : Point ℚ).y ∧
      n.width = (([⟨4, 0⟩, ⟨0, 3⟩] : List (Point ℚ)).map Point.x).foldl max (⟨0, 0⟩ : Point ℚ).x -
        (([⟨4, 0⟩, ⟨0, 3⟩] : List (Point ℚ)).map Point.x).foldl min (⟨0, 0⟩ : Point ℚ).x ∧
      n.height = (([⟨4, 0⟩, ⟨0, 3⟩] : List (Point ℚ)).map Point.y).foldl max (⟨0, 0⟩ : Point ℚ).y -
        (([⟨4, 0⟩, ⟨0, 3⟩] : List (Point ℚ)).map Point.y).foldl min (⟨0, 0⟩ : Point ℚ).y) :=
  ⟨⟨rfl, rfl⟩,
   C2_polygon_bounding_box testJs testFigma _ _ _ _ rfl rfl rfl rfl rfl rfl⟩

open FigmaMCP in
/-- C3: every synthesized path string is a move to the first vertex
followed by one line segment per subsequent vertex; polygon paths end
with the close marker `" Z"`, line paths are left open; in both cases
the node's vector-path attribute is the single-element list with winding
rule `"NONZERO"`. -/
theorem C3_path_synthesis [LinearOrderedField α] (js : JsEnv α) (figma : Figma α)
    (propsL : CreationProperties α) (l : LineProperties α)
    (propsP : CreationProperties α) (pg : PolygonProperties α)
    (p0 : Point α) (rest : List (Point α))
    (hl : propsL.line = some l) (hpg : propsP.polygon = some pg)
    (hres : resolvePolygonPoints js pg = Except.ok (p0 :: rest)) :
    (∀ n, create js figma "line" propsL = Except.ok n →
      n.vectorPaths =
        [{ windingRule := "NONZERO"
           data := specPathString js.numStr l.start [l.endP] false }]) ∧
    (∀ n, create js figma "polygon" propsP = Except.ok n →
      n.vectorPaths =
        [{ windingRule := "NONZERO"
           data := specPathString js.numStr p0 rest true }]) := by
  constructor
  · intro n hn
    simp [create, createKindStep, hl, Except.map] at hn
    subst hn
    rw [applyCommon_spec]
    simp [specPathString, lineSegments, String.append_assoc, Node.resize]
  · intro n hn
    simp [create, createKindStep, hpg, hres, Except.map] at hn
    subst hn
    rw [applyCommon_spec]
    simp [specPathString, foldl_lineSegments_assoc, String.append_assoc, Node.resize]

open FigmaMCP in
/-- Witness for C3 at a concrete line and a concrete two-point polygon. -/
theorem C3_path_synthesis_witness :
    (({ line := some { start := ⟨0, 0⟩, endP := ⟨5, 6⟩ } } : CreationProperties ℚ).line =
        some { start := ⟨0, 0⟩, endP := ⟨5, 6⟩ } ∧
      ({ polygon := some { points := some [⟨1, 1⟩, ⟨2, 2⟩] } } :
          CreationProperties ℚ).polygon = some { points := some [⟨1, 1⟩, ⟨2, 2⟩] } ∧
      resolvePolygonPoints testJs { points := some [⟨1, 1⟩, ⟨2, 2⟩] } =
        Except.ok [(⟨1, 1⟩ : Point ℚ), ⟨2, 2⟩]) ∧
    ((∀ n : Node ℚ, create testJs testFigma "line"
        { line := some { start := ⟨0, 0⟩, endP := ⟨5, 6⟩ } } = Except.ok n →
      n.vectorPaths =
        [{ windingRule := "NONZERO"
           data := specPathString testJs.numStr ⟨0, 0⟩ [⟨5, 6⟩] false }]) ∧
    (∀ n : Node ℚ, create testJs testFigma "polygon"
        { polygon := some { points := some [⟨1, 1⟩, ⟨2, 2⟩] } } = Except.ok n →
      n.vectorPaths =
        [{ windingRule := "NONZERO"
           data := specPathString testJs.numStr ⟨1, 1⟩ [⟨2, 2⟩] true }])) :=
  ⟨⟨rfl, rfl, rfl⟩,
   C3_path_synthesis testJs testFigma _ _ _ _ _ _ rfl rfl rfl⟩

open FigmaMCP in
/-- C7: base64 round trip through the image loader — encoding any byte
sequence (values < 256) as an embedded-data source (recognized
`data:image` prefix, payload after the first comma) and loading it
returns exactly those bytes, in particular of the same length; a source
without the embedded-data prefix is fetched as a URL. -/
theorem C7_image_source_roundtrip {α : Type} (js : JsEnv α) (b : List ℕ) (url : String)
    (hb : ∀ x ∈ b, x < 256) (hurl : jsStartsWith url "data:image" = false) :
    (loadImage js ("data:image/png;base64," ++ String.mk (btoa b)) = Except.ok b ∧
      b.length = b.length) ∧
    loadImage js url = js.fetch url := by
  refine ⟨⟨loadImage_data_uri js b hb, rfl⟩, ?_⟩
  simp [loadImage, hurl]

open FigmaMCP in
/-- Witness for C7 at the byte sequence `[77, 97, 110]` and the URL
source `"http://x"`. -/
theorem C7_image_source_roundtrip_witness :
    ((∀ x ∈ [77, 97, 110], x < 256) ∧ jsStartsWith "http://x" "data:image" = false) ∧
    ((loadImage testJs ("data:image/png;base64," ++ String.mk (btoa [77, 97, 110])) =
        Except.ok [77, 97, 110] ∧
      ([77, 97, 110] : List ℕ).length = ([77, 97, 110] : List ℕ).length) ∧
    loadImage testJs "http://x" = testJs.fetch "http://x") :=
  ⟨⟨by decide, by decide⟩,
   C7_image_source_roundtrip testJs [77, 97, 110] "http://x" (by decide) (by decide)⟩

open FigmaMCP in
/-- C8: a successful image creation's fills list is exactly the single
constructed image paint (type IMAGE, scale mode from the bag or the
`"FILL"` default, the registered image reference) even when
`properties.fill` is also supplied; the generic solid-fill step is
skipped for kind `image` and for no other kind — for every other kind a
supplied fill becomes the single solid fill entry. -/
theorem C8_image_fill [LinearOrderedField α] (js : JsEnv α) (figma : Figma α) :
    (∀ (props : CreationProperties α) (im : ImageProperties α) (data : List ℕ) (n : Node α),
      props.image = some im → loadImage js im.source = Except.ok data →
      create js figma "image" props = Except.ok n →
      n.fills = [Paint.image (jsOrStr im.scaleMode "FILL") (figma.createImage data)]) ∧
    (∀ (shapeType : String) (props : CreationProperties α) (f : FillStyle α) (n : Node α),
      shapeType ≠ "image" → props.fill = some f →
      create js figma shapeType props = Except.ok n →
      n.fills = [Paint.solid f.color]) := by
  constructor
  · intro props im data n him hload hn
    obtain ⟨m, hm, rfl⟩ := (create_ok_iff js figma "image" props n).mp hn
    rw [applyCommon_spec]
    simp
    exact createKindStep_image_fills js figma props im data him hload m hm
  · intro shapeType props f n ht hf hn
    obtain ⟨m, hm, rfl⟩ := (create_ok_iff js figma shapeType props n).mp hn
    rw [applyCommon_spec]
    simp [ht, hf]

open FigmaMCP in
/-- Witness for C8: an image creation that also carries a generic fill
keeps only the image paint; a rectangle creation with the same fill gets
the solid paint. -/
theorem C8_image_fill_witness :
    (({ image := some { source := "http://ok" },
          fill := some { color := { r := 1, g := 0, b := 0 } } } :
            CreationProperties ℚ).image = some { source := "http://ok" } ∧
      loadImage testJs (({ source := "http://ok" } : ImageProperties ℚ)).source =
        Except.ok [1, 2, 3] ∧
      create testJs testFigma "image"
          { image := some { source := "http://ok" },
            fill := some { color := { r := 1, g := 0, b := 0 } } } =
        Except.ok { blankNode with
                    nodeType := "RECTANGLE"
                    fills := [Paint.image "FILL" "hash"] } ∧
      ("rectangle" : String) ≠ "image" ∧
      create testJs testFigma "rectangle"
          { fill := some { color := { r := 1, g := 0, b := 0 } } } =
        Except.ok { blankNode with
                    nodeType := "RECTANGLE"
                    fills := [Paint.solid { r := 1, g := 0, b := 0 }] }) ∧
    (({ blankNode with
        nodeType := "RECTANGLE"
        fills := [Paint.image "FILL" "hash"] } : Node ℚ).fills =
      [Paint.image (jsOrStr (({ source := "http://ok" } : ImageProperties ℚ)).scaleMode "FILL")
        (testFigma.createImage [1, 2, 3])] ∧
    ({ blankNode with
        nodeType := "RECTANGLE"
        fills := [Paint.solid { r := 1, g := 0, b := 0 }] } : Node ℚ).fills =
      [Paint.solid ({ color := { r := 1, g := 0, b := 0 } } : FillStyle ℚ).color]) := by
  have h1 : create testJs testFigma "image"
      { image := some { source := "http://ok" },
        fill := some { color := { r := 1, g := 0, b := 0 } } } =
      Except.ok { blankNode with
                  nodeType := "RECTANGLE"
                  fills := [Paint.image "FILL" "hash"] } := by rfl
  have h2 : create testJs testFigma "rectangle"
      { fill := some { color := { r := 1, g := 0, b := 0 } } } =
      Except.ok { blankNode with
                  nodeType := "RECTANGLE"
                  fills := [Paint.solid { r := 1, g := 0, b := 0 }] } := by rfl
  exact ⟨⟨rfl, rfl, h1, by decide, h2⟩,
    (C8_image_fill testJs testFigma).1 _ _ [1, 2, 3] _ rfl rfl h1,
    (C8_image_fill testJs testFigma).2 "rectangle" _ _ _ (by decide) rfl h2⟩

open FigmaMCP in
/-- C9: a modify whose image sub-bag lacks a scale mode rebuilds the
image paint with the scale mode of the node's previous first fill,
falling back to `"FILL"` when none exists; and a modify on a node
reference the external API cannot resolve fails immediately with the
`Node not found` error. -/
theorem C9_modify_scale_mode [LinearOrderedField α] (js : JsEnv α) (figma : Figma α)
    (uri : String) (props : CreationProperties α) :
    (figma.getNodeById uri = none →
      modify js figma uri props =
        Except.error (CreateError.nodeNotFound ("Node not found: " ++ uri))) ∧
    (∀ (node : Node α) (im : ImageProperties α) (data : List ℕ) (n' : Node α),
      figma.getNodeById uri = some node → props.image = some im → im.scaleMode = none →
      loadImage js im.source = Except.ok data →
      modify js figma uri props = Except.ok n' →
      n'.fills = [Paint.image
        (jsOrStr ((node.fills.head?).bind Paint.scaleModeField) "FILL")
        (figma.createImage data)]) := by
  constructor
  · intro h
    simp [FigmaMCP.modify, h]
  · intro node im data n' hget him hsm hload hmod
    rcases im with ⟨src, sm, op, rot, cs⟩
    simp only at hsm hload
    subst hsm
    simp [FigmaMCP.modify, hget, him, hload] at hmod
    subst hmod
    rw [ifDefined_fills_upY, ifDefined_fills_upX, ifDefined_fills_upH, ifDefined_fills_upW]
    cases op <;> cases rot <;> rcases cs with _ | ⟨ct, cl, cb, cr⟩ <;>
      first
        | (cases ct <;> cases cl <;> cases cb <;> cases cr <;> simp [ifDefined, jsOrStr])
        | simp [ifDefined, jsOrStr]

open FigmaMCP in
/-- Witness for C9: modifying node `"n1"`, whose previous first fill is
an image paint with scale mode `"FIT"`, with an image bag lacking a
scale mode keeps `"FIT"`; modifying the unresolvable reference
`"missing"` fails with `Node not found`. -/
theorem C9_modify_scale_mode_witness :
    (testFigma.getNodeById "missing" = none ∧
      modify testJs testFigma "missing" { image := some { source := "http://ok" } } =
        Except.error (CreateError.nodeNotFound ("Node not found: " ++ "missing"))) ∧
    (testFigma.getNodeById "n1" =
        some { blankNode with
               id := "n1"
               fills := [Paint.image "FIT" "oldhash"] } ∧
      modify testJs testFigma "n1" { image := some { source := "http://ok" } } =
        Except.ok { blankNode with
                    id := "n1"
                    fills := [Paint.image "FIT" "hash"] } ∧
      ({ blankNode with
         id := "n1"
         fills := [Paint.image "FIT" "hash"] } : Node ℚ).fills =
        [Paint.image
          (jsOrStr ((({ blankNode with
              id := "n1"
              fills := [Paint.image "FIT" "oldhash"] } : Node ℚ).fills.head?).bind
            Paint.scaleModeField) "FILL")
          (testFigma.createImage [1, 2, 3])]) := by
  have hm : modify testJs testFigma "n1" { image := some { source := "http://ok" } } =
      Except.ok { blankNode with
                  id := "n1"
                  fills := [Paint.image "FIT" "hash"] } := by rfl
  refine ⟨⟨rfl, (C9_modify_scale_mode testJs testFigma "missing"
    { image := some { source := "http://ok" } }).1 rfl⟩, rfl, hm, ?_⟩
  exact (C9_modify_scale_mode testJs testFigma "n1"
    { image := some { source := "http://ok" } }).2 _ _ [1, 2, 3] _ rfl rfl rfl rfl hm

open FigmaMCP in
/-- C5: `create` fails with `MissingRequiredProperty` exactly when a
required kind-specific sub-bag is absent (line, polygon, image — with
the quoted messages) or a polygon bag supplies neither a truthy explicit
points array nor the truthy sides+radius pair (with the quoted message);
no other input produces this error kind, and in each case the error is
the immediate result with no node constructed. -/
theorem C5_missing_required [LinearOrderedField α] (js : JsEnv α) (figma : Figma α)
    (shapeType : String) (props : CreationProperties α) :
    (isMissingRequired (create js figma shapeType props) = true ↔
      (shapeType = "line" ∧ props.line = none) ∨
      (shapeType = "polygon" ∧ props.polygon = none) ∨
      (shapeType = "polygon" ∧ ∃ pg, props.polygon = some pg ∧ pg.points = none ∧
        (truthyNat pg.sides && truthyNum pg.radius) = false) ∨
      (shapeType = "image" ∧ props.image = none)) ∧
    (props.line = none →
      create js figma "line" props = Except.error
        (CreateError.missingRequired "Line properties are required for line creation")) ∧
    (props.polygon = none →
      create js figma "polygon" props = Except.error
        (CreateError.missingRequired "Polygon properties are required for polygon creation")) ∧
    (∀ pg, props.polygon = some pg → pg.points = none →
      (truthyNat pg.sides && truthyNum pg.radius) = false →
      create js figma "polygon" props = Except.error (CreateError.missingRequired
        "Either points or sides+radius must be provided for polygon creation")) ∧
    (props.image = none →
      create js figma "image" props = Except.error
        (CreateError.missingRequired "Image properties are required for image creation")) := by
  refine ⟨?_, ?_, ?_, ?_, ?_⟩
  · rw [show create js figma shapeType props =
      Except.map (applyCommon shapeType props) (createKindStep js figma shapeType props) from rfl,
      isMissingRequired_map]
    unfold createKindStep
    split
    · simp [isMissingRequired]
    · simp [isMissingRequired]
    · simp [isMissingRequired]
    · -- line
      cases hl : props.line <;> simp [isMissingRequired, hl]
    · -- polygon
      cases hpg : props.polygon with
      | none => simp [isMissingRequired, hpg]
      | some pg =>
          unfold resolvePolygonPoints
          cases hpts : pg.points with
          | some ps =>
              cases ps <;> simp [isMissingRequired, hpg, hpts]
          | none =>
              cases hc : truthyNat pg.sides && truthyNum pg.radius with
              | true =>
                  have hc' := hc
                  simp only [Bool.and_eq_true] at hc'
                  obtain ⟨hs, hr⟩ := hc' 
                  cases hl : calculateRegularPolygonPoints js.math (pg.centerX.getD 0)
                      (pg.centerY.getD 0) (pg.radius.getD 0) (pg.sides.getD 0)
                      (pg.rotation.getD 0) with
                  | nil => simp [isMissingRequired, hpg, hpts, hc, hl, hs, hr]
                  | cons p0 rest => simp [isMissingRequired, hpg, hpts, hc, hl, hs, hr]
              | false =>
                  simp [isMissingRequired, hpg, hpts, hc]
                  intro htn
                  simpa [htn] using hc
    · -- image
      cases him : props.image with
      | none => simp [isMissingRequired, him]
      | some im =>
          cases hload : loadImage js im.source <;> simp [isMissingRequired, him, hload]
    · -- default
      rename_i h1 h2 h3 h4 h5 h6
      simp [isMissingRequired]
      exact ⟨fun h => (h4 h).elim, fun h => (h5 h).elim, fun h => (h5 h).elim,
        fun h => (h6 h).elim⟩
  · intro h
    simp [create, createKindStep, h, Except.map]
  · intro h
    simp [create, createKindStep, h, Except.map]
  · intro pg hpg hpts hc
    simp [create, createKindStep, resolvePolygonPoints, hpg, hpts, hc, Except.map]
  · intro h
    simp [create, createKindStep, h, Except.map]

open FigmaMCP in
/-- Witness for C5: each missing-sub-bag creation over `ℚ` yields the
quoted `MissingRequiredProperty` message. -/
theorem C5_missing_required_witness :
    create testJs testFigma "line" ({} : CreationProperties ℚ) = Except.error
      (CreateError.missingRequired "Line properties are required for line creation") ∧
    create testJs testFigma "polygon" ({} : CreationProperties ℚ) = Except.error
      (CreateError.missingRequired "Polygon properties are required for polygon creation") ∧
    create testJs testFigma "polygon" { polygon := some {} } = Except.error
      (CreateError.missingRequired
        "Either points or sides+radius must be provided for polygon creation") ∧
    create testJs testFigma "image" ({} : CreationProperties ℚ) = Except.error
      (CreateError.missingRequired "Image properties are required for image creation") :=
  ⟨(C5_missing_required testJs testFigma "line" {}).2.1 rfl,
   (C5_missing_required testJs testFigma "polygon" {}).2.2.1 rfl,
   (C5_missing_required testJs testFigma "polygon" { polygon := some {} }).2.2.2.1 {} rfl rfl rfl,
   (C5_missing_required testJs testFigma "image" {}).2.2.2.2 rfl⟩
